import Mathlib

/-
  Shallow embedding of src/src/Code.ts (urvana/appscript-chatgpt).

  The host services (Utilities.computeDigest, UrlFetchApp.fetch of the
  chat-completions and models endpoints, Session.getTemporaryActiveUserKey)
  are external collaborators; they are modelled as a record of pure
  functions (a deterministic oracle).  The document/script/user cache of
  CacheService is modelled as an association list of string entries, and
  the single user property PROPERTY_KEY_OPENAPI as an Option String.
  Machine effects (cache reads, cache writes, transport calls) are
  returned explicitly as traces next to the computed value.
-/

namespace Urvana

/-- A spreadsheet / JavaScript runtime value as consumed by STRING_CLEAN:
a string, a number (modelled as an integer, the only numbers the program
manipulates), null or undefined. -/
inductive JsVal where
  | str (s : String)
  | num (n : Int)
  | null
  | undefined
deriving Repr, DecidableEq

/-- Model of String.prototype.trim, as used by STRING_CLEAN and on the
upstream message content. -/
def jsTrim (s : String) : String :=
  ((s.toList.dropWhile Char.isWhitespace).reverse.dropWhile Char.isWhitespace).reverse.asString

/-- const SYSTEM_PROMPT (Code.ts line 15). -/
def SYSTEM_PROMPT : String :=
  "\n  You are a helpful assistant integrated within a Google Sheets application.\n  Your task is to provide accurate, concise, and user-friendly responses to user prompts.\n  Explanation is not needed, just provide the best answer you can.\n"

/-- const DEFAULT_MAX_TOKENS = 150. -/
def DEFAULT_MAX_TOKENS : Int := 150

/-- const DEFAULT_TEMPERATURE = 0.0. -/
def DEFAULT_TEMPERATURE : Int := 0

/-- const DEFAULT_CACHE_DURATION = 21600; number or undefined or null, so
Option Int; the functions below take the duration as a parameter so that
every documented configuration (0/null/undefined disables, -1 forever,
positive seconds) can be reasoned about. -/
def DEFAULT_CACHE_DURATION : Option Int := some 21600

/-- const DEFAULT_SEED = 0. -/
def DEFAULT_SEED : Int := 0

/-- const EMPTY = "EMPTY": the sentinel value for empty results. -/
def EMPTY : String := "EMPTY"

/-- const OPENAI_API_KEY = "" (the optional hardcoded key). -/
def OPENAI_API_KEY : String := ""

/-- const PROPERTY_KEY_OPENAPI. -/
def PROPERTY_KEY_OPENAPI : String := "OPENAI_API_KEY"

/-- function STRING_CLEAN (Code.ts lines 290-298): null/undefined become
empty text, numbers are stringified, everything else is trimmed. -/
def STRING_CLEAN : JsVal → String
  | .undefined => ""
  | .null => ""
  | .num n => toString n
  | .str s => jsTrim s

/-- How Array.prototype.join renders one element: null and undefined
render as empty text, numbers via their decimal representation. -/
def joinString : JsVal → String
  | .undefined => ""
  | .null => ""
  | .num n => toString n
  | .str s => s

/-- args.join("") (Code.ts line 304): the digest input of HASH. -/
def hashInput (args : List JsVal) : String :=
  String.join (args.map joinString)

/-- One byte rendered as two lowercase hex digits:
(byte & 0xff).toString(16) padded to length 2 (Code.ts lines 306-309). -/
def byteToHex (b : Int) : String :=
  let v := (Nat.toDigits 16 (b % 256).toNat).asString
  if v.length = 1 then "0" ++ v else v

/-- function HASH (Code.ts lines 300-312).  The digest algorithm
(Utilities.computeDigest with DigestAlgorithm.SHA_1) is an external
service, passed in as a function from the digest input to a byte list. -/
def HASH (digest : String → List Int) (args : List JsVal) : String :=
  String.join ((digest (hashInput args)).map byteToHex)

/-- function HASH_SHA1 (Code.ts lines 313-315): HASH with the SHA_1
algorithm; the digest parameter stands for that fixed algorithm. -/
def HASH_SHA1 (digest : String → List Int) (args : List JsVal) : String :=
  HASH digest args

/-- One chat message ({role, content}). -/
structure Msg where
  role : String
  content : String
deriving Repr, DecidableEq

/-- The ChatCompletionCreateParamsNonStreaming payload POSTed to the
completions endpoint (Code.ts lines 84-94). -/
structure Payload where
  stream : Bool
  model : String
  max_tokens : Int
  messages : List Msg
  temperature : Int
  n : Int
  user : String
  seed : Int
deriving Repr, DecidableEq

/-- One choice of a ChatCompletion; only choice.message.content is read,
and it is nullable. -/
structure Choice where
  content : Option String
deriving Repr, DecidableEq

/-- The decoded ChatCompletion response; only data.choices is read. -/
structure ChatCompletion where
  choices : List Choice
deriving Repr, DecidableEq

/-- The external host services used by the program, as a deterministic
oracle: the SHA-1 digest, the temporary active user key, the
chat-completions endpoint, and the models endpoint (keyed by the bearer
api key; none models a response whose data field is not an array). -/
structure Host where
  digest : String → List Int
  userKey : String
  chat : Payload → ChatCompletion
  models : String → Option (List String)

/-- The CacheService cache contents, an association list from keys to
stored text. -/
structure Cache where
  entries : List (String × String)
deriving Repr, DecidableEq

/-- cache.get: null (here none) when absent. -/
def Cache.get (c : Cache) (k : String) : Option String :=
  c.entries.lookup k

/-- cache.put: (over)writes the entry for a key. -/
def Cache.put (c : Cache) (k v : String) : Cache :=
  ⟨(k, v) :: c.entries⟩

/-- The expiration argument passed to cache.put: a finite number of
seconds or Number.POSITIVE_INFINITY. -/
inductive Ttl where
  | fin (seconds : Int)
  | inf
deriving Repr, DecidableEq

/-- JavaScript truthiness of the cache-duration configuration value:
0, null and undefined are falsy. -/
def numOptTruthy : Option Int → Bool
  | none => false
  | some d => d != 0

/-- JavaScript truthiness of a runtime value (empty string, 0, null,
undefined are falsy). -/
def JsVal.truthy : JsVal → Bool
  | .null => false
  | .undefined => false
  | .str s => s != ""
  | .num n => n != 0

/-- The outcome of one REQUEST_COMPLETIONS run: the returned string, the
cache state afterwards, and the traces of cache reads, cache writes and
transport calls it performed. -/
structure ReqOut where
  result : String
  cache : Cache
  cacheGets : List String
  puts : List (String × String × Ttl)
  fetches : List Payload
deriving Repr, DecidableEq

/-- The cache key computed at Code.ts line 61:
HASH_SHA1(promptCleaned, model, maxTokens, temperature). -/
def reqKey (host : Host) (promptCleaned model : String) (maxTokens temperature : Int) : String :=
  HASH_SHA1 host.digest
    [.str promptCleaned, .str model, .num maxTokens, .num temperature]

/-- The message list composed at Code.ts lines 71-76: the cleaned system
prompt when non-empty, then the single user message. -/
def requestMessages (promptSystemCleaned promptCleaned : String) : List Msg :=
  (if promptSystemCleaned = "" then [] else [⟨"system", promptSystemCleaned⟩])
    ++ [⟨"user", promptCleaned⟩]

/-- The payload built at Code.ts lines 84-94. -/
def requestPayload (host : Host) (promptSystemCleaned promptCleaned model : String)
    (maxTokens temperature : Int) : Payload :=
  { stream := false
    model := model
    max_tokens := maxTokens
    messages := requestMessages promptSystemCleaned promptCleaned
    temperature := temperature
    n := 1
    user := host.userKey
    seed := DEFAULT_SEED }

/-- function REQUEST_COMPLETIONS (Code.ts lines 43-124).
The defaults of the optional parameters (model "gpt-3.5-turbo",
DEFAULT_MAX_TOKENS, DEFAULT_TEMPERATURE) are supplied by the callers
below; cacheDuration stands for the DEFAULT_CACHE_DURATION constant. -/
def REQUEST_COMPLETIONS (host : Host) (cacheDuration : Option Int) (cache : Cache)
    (apiKey promptSystem : String) (prompt : JsVal)
    (model : String) (maxTokens temperature : Int) : ReqOut :=
  let promptCleaned := STRING_CLEAN prompt
  if promptCleaned = "" then
    { result := EMPTY, cache := cache, cacheGets := [], puts := [], fetches := [] }
  else
    let promptSystemCleaned := STRING_CLEAN (JsVal.str promptSystem)
    let cacheKey := reqKey host promptCleaned model maxTokens temperature
    let gets := if numOptTruthy cacheDuration then [cacheKey] else []
    let cached : Option String :=
      if numOptTruthy cacheDuration then cache.get cacheKey else none
    let hit : Option String :=
      match cached with
      | some s => if s = "" then none else some s
      | none => none
    match hit with
    | some cachedResponse =>
      { result := cachedResponse, cache := cache, cacheGets := gets, puts := [], fetches := [] }
    | none =>
      let payload := requestPayload host promptSystemCleaned promptCleaned model maxTokens temperature
      let data := host.chat payload
      match data.choices.head? with
      | none =>
        { result := EMPTY, cache := cache, cacheGets := gets, puts := [], fetches := [payload] }
      | some choice =>
        let content := jsTrim (choice.content.getD "")
        if content = "" then
          { result := EMPTY, cache := cache, cacheGets := gets, puts := [], fetches := [payload] }
        else if cacheDuration = some (-1) then
          { result := content, cache := cache.put cacheKey content, cacheGets := gets
            puts := [(cacheKey, content, Ttl.inf)], fetches := [payload] }
        else if numOptTruthy cacheDuration then
          { result := content, cache := cache.put cacheKey content, cacheGets := gets
            puts := [(cacheKey, content, Ttl.fin (cacheDuration.getD 0))], fetches := [payload] }
        else
          { result := content, cache := cache, cacheGets := gets, puts := [], fetches := [payload] }

/-- The thrown message of PROPERTY_API_KEY_GET (Code.ts lines 283-285). -/
def ERROR_NO_KEY : String :=
  "Use =CHATGPTKEY(\"YOUR_API_KEY\") first. Get it from https://platform.openai.com/api-keys"

/-- function PROPERTY_API_KEY_GET (Code.ts lines 279-288); stored is the
value of the PROPERTY_KEY_OPENAPI user property (none when absent); a
thrown error is an Except.error. -/
def PROPERTY_API_KEY_GET (stored : Option String) : Except String String :=
  let apiKey := match stored with
    | some s => if s = "" then OPENAI_API_KEY else s
    | none => OPENAI_API_KEY
  if apiKey = "" then Except.error ERROR_NO_KEY else Except.ok apiKey

/-- function PROPERTY_API_KEY_SET (Code.ts lines 270-277): null and
undefined delete the property, any other value is stored (numbers are
coerced to text by the store). -/
def PROPERTY_API_KEY_SET (apiKey : JsVal) (stored : Option String) : Option String :=
  match apiKey with
  | .null => none
  | .undefined => none
  | .str s => some s
  | .num n => some (toString n)

/-- A scalar-or-grid spreadsheet argument (type SpreadsheetInput<T>). -/
inductive SpreadsheetInput (α : Type) where
  | scalar (value : α)
  | grid (rows : List (List α))
deriving Repr, DecidableEq

/-- The outcome of one CHATGPT run: the scalar-or-grid value returned,
the cache afterwards, and the transport calls in order. -/
structure BatchOut where
  result : SpreadsheetInput String
  cache : Cache
  fetches : List Payload
deriving Repr, DecidableEq

/-- row.map(cell => REQUEST_COMPLETIONS(...)) (Code.ts lines 147-156),
threading the shared cache through the sequential cell calls. -/
def runRow (host : Host) (cacheDuration : Option Int) (apiKey promptSystem model : String)
    (maxTokens temperature : Int) :
    List JsVal → Cache → List String × Cache × List Payload
  | [], c => ([], c, [])
  | cell :: rest, c =>
    let r := REQUEST_COMPLETIONS host cacheDuration c apiKey promptSystem cell
      model maxTokens temperature
    let rec' := runRow host cacheDuration apiKey promptSystem model maxTokens temperature rest r.cache
    (r.result :: rec'.1, rec'.2.1, r.fetches ++ rec'.2.2)

/-- prompt.map(row => ...) (Code.ts lines 146-157). -/
def runGrid (host : Host) (cacheDuration : Option Int) (apiKey promptSystem model : String)
    (maxTokens temperature : Int) :
    List (List JsVal) → Cache → List (List String) × Cache × List Payload
  | [], c => ([], c, [])
  | row :: rest, c =>
    let r := runRow host cacheDuration apiKey promptSystem model maxTokens temperature row c
    let rec' := runGrid host cacheDuration apiKey promptSystem model maxTokens temperature rest r.2.1
    (r.1 :: rec'.1, rec'.2.1, r.2.2 ++ rec'.2.2)

/-- function CHATGPT (Code.ts lines 137-167): fetch the api key (a throw
is an Except.error), then map REQUEST_COMPLETIONS over the scalar or the
grid with the fixed SYSTEM_PROMPT. -/
def CHATGPT (host : Host) (cacheDuration : Option Int) (stored : Option String)
    (cache : Cache) (prompt : SpreadsheetInput JsVal)
    (model : String) (maxTokens temperature : Int) : Except String BatchOut :=
  match PROPERTY_API_KEY_GET stored with
  | Except.error e => Except.error e
  | Except.ok apiKey =>
    match prompt with
    | .grid rows =>
      let r := runGrid host cacheDuration apiKey SYSTEM_PROMPT model maxTokens temperature rows cache
      Except.ok { result := .grid r.1, cache := r.2.1, fetches := r.2.2 }
    | .scalar p =>
      let r := REQUEST_COMPLETIONS host cacheDuration cache apiKey SYSTEM_PROMPT p
        model maxTokens temperature
      Except.ok { result := .scalar r.result, cache := r.cache, fetches := r.fetches }

/-- function CHATGPT3 (Code.ts lines 179-185). -/
def CHATGPT3 (host : Host) (cacheDuration : Option Int) (stored : Option String)
    (cache : Cache) (prompt : SpreadsheetInput JsVal)
    (maxTokens temperature : Int) : Except String BatchOut :=
  CHATGPT host cacheDuration stored cache prompt "gpt-3.5-turbo" maxTokens temperature

/-- function CHATGPT4 (Code.ts lines 197-203). -/
def CHATGPT4 (host : Host) (cacheDuration : Option Int) (stored : Option String)
    (cache : Cache) (prompt : SpreadsheetInput JsVal)
    (maxTokens temperature : Int) : Except String BatchOut :=
  CHATGPT host cacheDuration stored cache prompt "gpt-4" maxTokens temperature

/-- The outcome of CHATGPTKEY: the returned message, the user property
store afterwards, and the bearer keys of the probes of the models
endpoint it made. -/
structure KeyOut where
  message : String
  stored : Option String
  probes : List String
deriving Repr, DecidableEq

/-- function CHATGPTKEY (Code.ts lines 212-237): store (or delete) the
key, return the removal message for a falsy key, otherwise probe the
models endpoint with the key and report validity. -/
def CHATGPTKEY (host : Host) (stored : Option String) (apiKey : JsVal) : KeyOut :=
  let stored' := PROPERTY_API_KEY_SET apiKey stored
  if apiKey.truthy = false then
    { message := "🚮 API Key removed from user settings.", stored := stored', probes := [] }
  else
    let keyStr := joinString apiKey
    match host.models keyStr with
    | none =>
      { message := "❌ API Key is invalid or failed to connect.", stored := stored'
        probes := [keyStr] }
    | some ids =>
      if ids.isEmpty then
        { message := "❌ API Key is invalid or failed to connect.", stored := stored'
          probes := [keyStr] }
      else
        { message := "✅ API Key saved successfully.", stored := stored', probes := [keyStr] }

/-- The outcome of CHATGPTMODELS: the returned grid and the bearer keys
of the probes it made. -/
structure ModelsOut where
  result : List (List String)
  probes : List String
deriving Repr, DecidableEq

/-- function CHATGPTMODELS (Code.ts lines 245-268). -/
def CHATGPTMODELS (host : Host) (stored : Option String) : Except String ModelsOut :=
  match PROPERTY_API_KEY_GET stored with
  | Except.error e => Except.error e
  | Except.ok apiKey =>
    match host.models apiKey with
    | none => Except.ok { result := [["🌵 No models available"]], probes := [apiKey] }
    | some ids =>
      if ids.isEmpty then
        Except.ok { result := [["🌵 No models available"]], probes := [apiKey] }
      else
        Except.ok { result := ids.map (fun id => [id]), probes := [apiKey] }

/-! ## Characterization lemmas for REQUEST_COMPLETIONS -/

/-- The trimmed content the chat endpoint yields for one normalized
request; empty text both when there is no first choice and when the first
choice trims to empty text (in both cases nothing is stored and the
sentinel is returned). -/
def oracleContent (host : Host) (promptSystemCleaned promptCleaned model : String)
    (maxTokens temperature : Int) : String :=
  match (host.chat (requestPayload host promptSystemCleaned promptCleaned model
      maxTokens temperature)).choices.head? with
  | some choice => jsTrim (choice.content.getD "")
  | none => ""

/-- The outcome of the fetch path of REQUEST_COMPLETIONS, written as a
function of the oracle content (proved equal to the real thing in
request_fetch below; used only to organize proofs). -/
def fetchOut (host : Host) (cacheDuration : Option Int) (cache : Cache)
    (promptSystemCleaned promptCleaned model : String) (maxTokens temperature : Int) : ReqOut :=
  let cacheKey := reqKey host promptCleaned model maxTokens temperature
  let payload := requestPayload host promptSystemCleaned promptCleaned model maxTokens temperature
  let content := oracleContent host promptSystemCleaned promptCleaned model maxTokens temperature
  let gets := if numOptTruthy cacheDuration then [cacheKey] else []
  if content = "" then
    { result := EMPTY, cache := cache, cacheGets := gets, puts := [], fetches := [payload] }
  else if numOptTruthy cacheDuration then
    { result := content, cache := cache.put cacheKey content, cacheGets := gets
      puts := [(cacheKey, content,
        if cacheDuration = some (-1) then Ttl.inf else Ttl.fin (cacheDuration.getD 0))]
      fetches := [payload] }
  else
    { result := content, cache := cache, cacheGets := gets, puts := [], fetches := [payload] }

theorem Cache.get_put (c : Cache) (k v k' : String) :
    (c.put k v).get k' = if k' = k then some v else c.get k' := by
  simp only [Cache.get, Cache.put, List.lookup]
  by_cases h : k' = k
  · simp [h]
  · simp [h, beq_false_of_ne h]

theorem request_empty (host : Host) (cacheDuration : Option Int) (cache : Cache)
    (apiKey promptSystem : String) (prompt : JsVal) (model : String)
    (maxTokens temperature : Int) (hp : STRING_CLEAN prompt = "") :
    REQUEST_COMPLETIONS host cacheDuration cache apiKey promptSystem prompt
      model maxTokens temperature =
      { result := EMPTY, cache := cache, cacheGets := [], puts := [], fetches := [] } := by
  simp [REQUEST_COMPLETIONS, hp]

theorem request_hit (host : Host) (cacheDuration : Option Int) (cache : Cache)
    (apiKey promptSystem : String) (prompt : JsVal) (model : String)
    (maxTokens temperature : Int) (v : String)
    (hp : STRING_CLEAN prompt ≠ "")
    (ht : numOptTruthy cacheDuration = true)
    (hv : cache.get (reqKey host (STRING_CLEAN prompt) model maxTokens temperature) = some v)
    (hne : v ≠ "") :
    REQUEST_COMPLETIONS host cacheDuration cache apiKey promptSystem prompt
      model maxTokens temperature =
      { result := v, cache := cache
        cacheGets := [reqKey host (STRING_CLEAN prompt) model maxTokens temperature]
        puts := [], fetches := [] } := by
  simp [REQUEST_COMPLETIONS, hp, ht, hv, hne]

theorem request_fetch (host : Host) (cacheDuration : Option Int) (cache : Cache)
    (apiKey promptSystem : String) (prompt : JsVal) (model : String)
    (maxTokens temperature : Int)
    (hp : STRING_CLEAN prompt ≠ "")
    (hmiss : numOptTruthy cacheDuration = false ∨
      cache.get (reqKey host (STRING_CLEAN prompt) model maxTokens temperature) = none ∨
      cache.get (reqKey host (STRING_CLEAN prompt) model maxTokens temperature) = some "") :
    REQUEST_COMPLETIONS host cacheDuration cache apiKey promptSystem prompt
      model maxTokens temperature =
      fetchOut host cacheDuration cache (STRING_CLEAN (JsVal.str promptSystem))
        (STRING_CLEAN prompt) model maxTokens temperature := by
  have htruthyneg : cacheDuration = some (-1) → numOptTruthy cacheDuration = true := by
    intro h; simp [h, numOptTruthy]
  simp only [REQUEST_COMPLETIONS, fetchOut, oracleContent, hp, if_neg hp]
  rcases hmiss with ht | hm | hm
  · simp only [ht, Bool.false_eq_true, if_false]
    cases hch : (host.chat (requestPayload host (STRING_CLEAN (JsVal.str promptSystem))
        (STRING_CLEAN prompt) model maxTokens temperature)).choices.head? with
    | none => simp [hch]
    | some choice =>
      by_cases hc : jsTrim (choice.content.getD "") = ""
      · simp [hch, hc]
      · have hdm : cacheDuration ≠ some (-1) := fun h => by simp [htruthyneg h] at ht
        simp [hch, hc, ht, hdm]
  all_goals {
    by_cases ht : numOptTruthy cacheDuration = true
    · simp only [ht, if_true, hm]
      cases hch : (host.chat (requestPayload host (STRING_CLEAN (JsVal.str promptSystem))
          (STRING_CLEAN prompt) model maxTokens temperature)).choices.head? with
      | none => simp [hch]
      | some choice =>
        by_cases hc : jsTrim (choice.content.getD "") = ""
        · simp [hch, hc]
        · by_cases hd : cacheDuration = some (-1)
          · simp [hch, hc, hd, ht]
          · simp [hch, hc, hd, ht]
    · have ht' : numOptTruthy cacheDuration = false := by
        cases h : numOptTruthy cacheDuration
        · rfl
        · exact absurd h ht
      simp only [ht', Bool.false_eq_true, if_false]
      cases hch : (host.chat (requestPayload host (STRING_CLEAN (JsVal.str promptSystem))
          (STRING_CLEAN prompt) model maxTokens temperature)).choices.head? with
      | none => simp [hch]
      | some choice =>
        by_cases hc : jsTrim (choice.content.getD "") = ""
        · simp [hch, hc]
        · have hdm : cacheDuration ≠ some (-1) := fun h => by simp [htruthyneg h] at ht'
          simp [hch, hc, ht', hdm]
  }

/-- The expiration argument the fetch path would pass to cache.put. -/
def ttlOf (cacheDuration : Option Int) : Ttl :=
  if cacheDuration = some (-1) then Ttl.inf else Ttl.fin (cacheDuration.getD 0)

theorem fetchOut_result (host : Host) (dur : Option Int) (cache : Cache)
    (psc pc model : String) (mt t : Int) :
    (fetchOut host dur cache psc pc model mt t).result =
      (if oracleContent host psc pc model mt t = "" then EMPTY
       else oracleContent host psc pc model mt t) := by
  simp only [fetchOut]
  split
  · simp [*]
  · split <;> simp [*]

theorem fetchOut_cache (host : Host) (dur : Option Int) (cache : Cache)
    (psc pc model : String) (mt t : Int) :
    (fetchOut host dur cache psc pc model mt t).cache =
      (if oracleContent host psc pc model mt t ≠ "" ∧ numOptTruthy dur = true
       then cache.put (reqKey host pc model mt t) (oracleContent host psc pc model mt t)
       else cache) := by
  simp only [fetchOut]
  split
  · simp [*]
  · split <;> simp [*]

theorem fetchOut_gets (host : Host) (dur : Option Int) (cache : Cache)
    (psc pc model : String) (mt t : Int) :
    (fetchOut host dur cache psc pc model mt t).cacheGets =
      (if numOptTruthy dur then [reqKey host pc model mt t] else []) := by
  simp only [fetchOut]
  split
  · simp [*]
  · split <;> simp [*]

theorem fetchOut_puts (host : Host) (dur : Option Int) (cache : Cache)
    (psc pc model : String) (mt t : Int) :
    (fetchOut host dur cache psc pc model mt t).puts =
      (if oracleContent host psc pc model mt t ≠ "" ∧ numOptTruthy dur = true
       then [(reqKey host pc model mt t, oracleContent host psc pc model mt t, ttlOf dur)]
       else []) := by
  simp only [fetchOut, ttlOf]
  split
  · simp [*]
  · split <;> simp [*]

theorem fetchOut_fetches (host : Host) (dur : Option Int) (cache : Cache)
    (psc pc model : String) (mt t : Int) :
    (fetchOut host dur cache psc pc model mt t).fetches =
      [requestPayload host psc pc model mt t] := by
  simp only [fetchOut]
  split
  · simp [*]
  · split <;> simp [*]

/-! ## Isolation invariant for the grid mapping -/

/-- The relation between the cache a batch starts from (c0) and the cache
after some of its cells have run: every key either still has the binding
it had in c0, or was a key c0 had no usable entry for (absent or empty)
and now holds the non-empty oracle content of the request of some cell
whose cleaned prompt lies in S, keyed under this batchs shared model,
maxTokens and temperature. -/
def Extends (host : Host) (psc model : String) (mt t : Int) (S : List String)
    (c0 c : Cache) : Prop :=
  ∀ k, c.get k = c0.get k ∨
    ((c0.get k = none ∨ c0.get k = some "") ∧
     ∃ p ∈ S, k = reqKey host p model mt t ∧
       c.get k = some (oracleContent host psc p model mt t) ∧
       oracleContent host psc p model mt t ≠ "")

theorem Extends.refl (host : Host) (psc model : String) (mt t : Int) (S : List String)
    (c0 : Cache) : Extends host psc model mt t S c0 c0 :=
  fun _ => Or.inl rfl

/-- Running one cell from an evolved cache returns the same value as
running it in isolation from the initial cache, and preserves the
invariant, provided the key derivation is collision free on the cleaned
prompts in S. -/
theorem request_isolation_step (host : Host) (dur : Option Int) (c0 c : Cache)
    (apiKey promptSystem : String) (prompt : JsVal) (model : String)
    (mt t : Int) (S : List String)
    (hK : ∀ p1 ∈ S, ∀ p2 ∈ S,
      reqKey host p1 model mt t = reqKey host p2 model mt t → p1 = p2)
    (hmem : STRING_CLEAN prompt ∈ S)
    (hext : Extends host (STRING_CLEAN (JsVal.str promptSystem)) model mt t S c0 c) :
    (REQUEST_COMPLETIONS host dur c apiKey promptSystem prompt model mt t).result =
      (REQUEST_COMPLETIONS host dur c0 apiKey promptSystem prompt model mt t).result ∧
    Extends host (STRING_CLEAN (JsVal.str promptSystem)) model mt t S c0
      (REQUEST_COMPLETIONS host dur c apiKey promptSystem prompt model mt t).cache := by
  by_cases hp : STRING_CLEAN prompt = ""
  · rw [request_empty host dur c apiKey promptSystem prompt model mt t hp,
      request_empty host dur c0 apiKey promptSystem prompt model mt t hp]
    exact ⟨rfl, hext⟩
  · -- helper facts shared by the fetch subcases
    have fetch_both : ∀ hm : numOptTruthy dur = false ∨
        c.get (reqKey host (STRING_CLEAN prompt) model mt t) = none ∨
        c.get (reqKey host (STRING_CLEAN prompt) model mt t) = some "",
        ∀ hm0 : numOptTruthy dur = false ∨
        c0.get (reqKey host (STRING_CLEAN prompt) model mt t) = none ∨
        c0.get (reqKey host (STRING_CLEAN prompt) model mt t) = some "",
        (c0.get (reqKey host (STRING_CLEAN prompt) model mt t) = none ∨
         c0.get (reqKey host (STRING_CLEAN prompt) model mt t) = some "" ∨
         numOptTruthy dur = false) →
        (REQUEST_COMPLETIONS host dur c apiKey promptSystem prompt model mt t).result =
          (REQUEST_COMPLETIONS host dur c0 apiKey promptSystem prompt model mt t).result ∧
        Extends host (STRING_CLEAN (JsVal.str promptSystem)) model mt t S c0
          (REQUEST_COMPLETIONS host dur c apiKey promptSystem prompt model mt t).cache := by
      intro hm hm0 _
      rw [request_fetch host dur c apiKey promptSystem prompt model mt t hp hm,
        request_fetch host dur c0 apiKey promptSystem prompt model mt t hp hm0]
      refine ⟨by rw [fetchOut_result, fetchOut_result], ?_⟩
      rw [fetchOut_cache]
      split
      · -- a new entry is stored under the cell key
        rename_i hcond
        intro k
        by_cases hk : k = reqKey host (STRING_CLEAN prompt) model mt t
        · subst hk
          refine Or.inr ⟨?_, STRING_CLEAN prompt, hmem, rfl, ?_, hcond.1⟩
          · rcases hm with hm | hm | hm
            · exact absurd hcond.2 (by simp [hm])
            · rcases hext (reqKey host (STRING_CLEAN prompt) model mt t) with hs | ⟨h0, _⟩
              · exact Or.inl (hs ▸ hm)
              · exact h0
            · rcases hext (reqKey host (STRING_CLEAN prompt) model mt t) with hs | ⟨h0, _⟩
              · exact Or.inr (hs ▸ hm)
              · exact h0
          · rw [Cache.get_put]
            simp
        · rw [Cache.get_put]
          rw [if_neg hk]
          exact hext k
      · exact hext
    by_cases ht : numOptTruthy dur = true
    · rcases hext (reqKey host (STRING_CLEAN prompt) model mt t) with hsame |
        ⟨h0, p', hp'S, hkeq, hval, hne⟩
      · cases hc : c.get (reqKey host (STRING_CLEAN prompt) model mt t) with
        | none =>
          have h0c : c0.get (reqKey host (STRING_CLEAN prompt) model mt t) = none := by
            rw [← hsame, hc]
          exact fetch_both (Or.inr (Or.inl hc)) (Or.inr (Or.inl h0c)) (Or.inl h0c)
        | some v =>
          by_cases hv : v = ""
          · subst hv
            have h0c : c0.get (reqKey host (STRING_CLEAN prompt) model mt t) = some "" := by
              rw [← hsame, hc]
            exact fetch_both (Or.inr (Or.inr hc)) (Or.inr (Or.inr h0c)) (Or.inr (Or.inl h0c))
          · have h0c : c0.get (reqKey host (STRING_CLEAN prompt) model mt t) = some v := by
              rw [← hsame, hc]
            rw [request_hit host dur c apiKey promptSystem prompt model mt t v hp ht hc hv,
              request_hit host dur c0 apiKey promptSystem prompt model mt t v hp ht h0c hv]
            exact ⟨rfl, hext⟩
      · -- the hit value was stored by an earlier cell of this batch
        have hpp : p' = STRING_CLEAN prompt :=
          hK p' hp'S (STRING_CLEAN prompt) hmem hkeq.symm
        subst hpp
        rw [request_hit host dur c apiKey promptSystem prompt model mt t
          (oracleContent host (STRING_CLEAN (JsVal.str promptSystem)) (STRING_CLEAN prompt) model mt t)
          hp ht hval hne]
        have hm0 : numOptTruthy dur = false ∨
            c0.get (reqKey host (STRING_CLEAN prompt) model mt t) = none ∨
            c0.get (reqKey host (STRING_CLEAN prompt) model mt t) = some "" := by
          rcases h0 with h0 | h0
          · exact Or.inr (Or.inl (hkeq ▸ h0))
          · exact Or.inr (Or.inr (hkeq ▸ h0))
        rw [request_fetch host dur c0 apiKey promptSystem prompt model mt t hp hm0]
        refine ⟨?_, hext⟩
        rw [fetchOut_result]
        rw [if_neg hne]
    · have ht' : numOptTruthy dur = false := by
        cases h : numOptTruthy dur
        · rfl
        · exact absurd h ht
      exact fetch_both (Or.inl ht') (Or.inl ht') (Or.inr (Or.inr ht'))

theorem runRow_isolation (host : Host) (dur : Option Int) (c0 : Cache)
    (apiKey promptSystem model : String) (mt t : Int) (S : List String)
    (hK : ∀ p1 ∈ S, ∀ p2 ∈ S,
      reqKey host p1 model mt t = reqKey host p2 model mt t → p1 = p2)
    (row : List JsVal) :
    ∀ c : Cache, (∀ cell ∈ row, STRING_CLEAN cell ∈ S) →
      Extends host (STRING_CLEAN (JsVal.str promptSystem)) model mt t S c0 c →
      (runRow host dur apiKey promptSystem model mt t row c).1 =
        row.map (fun cell =>
          (REQUEST_COMPLETIONS host dur c0 apiKey promptSystem cell model mt t).result) ∧
      Extends host (STRING_CLEAN (JsVal.str promptSystem)) model mt t S c0
        (runRow host dur apiKey promptSystem model mt t row c).2.1 := by
  induction row with
  | nil => intro c _ hext; exact ⟨rfl, hext⟩
  | cons cell rest ih =>
    intro c hrow hext
    have hstep := request_isolation_step host dur c0 c apiKey promptSystem cell model mt t S
      hK (hrow cell (by simp)) hext
    have ihr := ih (REQUEST_COMPLETIONS host dur c apiKey promptSystem cell model mt t).cache
      (fun x hx => hrow x (by simp [hx])) hstep.2
    refine ⟨?_, ihr.2⟩
    simp only [runRow, List.map]
    exact congrArg₂ List.cons hstep.1 ihr.1

theorem runGrid_isolation (host : Host) (dur : Option Int) (c0 : Cache)
    (apiKey promptSystem model : String) (mt t : Int) (S : List String)
    (hK : ∀ p1 ∈ S, ∀ p2 ∈ S,
      reqKey host p1 model mt t = reqKey host p2 model mt t → p1 = p2)
    (rows : List (List JsVal)) :
    ∀ c : Cache, (∀ row ∈ rows, ∀ cell ∈ row, STRING_CLEAN cell ∈ S) →
      Extends host (STRING_CLEAN (JsVal.str promptSystem)) model mt t S c0 c →
      (runGrid host dur apiKey promptSystem model mt t rows c).1 =
        rows.map (fun row => row.map (fun cell =>
          (REQUEST_COMPLETIONS host dur c0 apiKey promptSystem cell model mt t).result)) ∧
      Extends host (STRING_CLEAN (JsVal.str promptSystem)) model mt t S c0
        (runGrid host dur apiKey promptSystem model mt t rows c).2.1 := by
  induction rows with
  | nil => intro c _ hext; exact ⟨rfl, hext⟩
  | cons row rest ih =>
    intro c hrows hext
    have hrow := runRow_isolation host dur c0 apiKey promptSystem model mt t S hK row c
      (hrows row (by simp)) hext
    have ihr := ih (runRow host dur apiKey promptSystem model mt t row c).2.1
      (fun r hr x hx => hrows r (by simp [hr]) x hx) hrow.2
    refine ⟨?_, ihr.2⟩
    simp only [runGrid, List.map]
    exact congrArg₂ List.cons hrow.1 ihr.1

/-! ## Concrete fixtures used by the witnesses -/

/-- A concrete stand-in for the SHA-1 digest service: the code points of
the input. -/
def witDigest : String → List Int := fun s => s.toList.map (fun ch => (ch.toNat : Int))

/-- A concrete host whose chat endpoint always answers " ok ". -/
def witHost : Host :=
  { digest := witDigest, userKey := "uk"
    chat := fun _ => { choices := [{ content := some " ok " }] }
    models := fun _ => none }

/-- A concrete host whose chat endpoint answers with no choice. -/
def witHostNoChoice : Host :=
  { digest := witDigest, userKey := "uk"
    chat := fun _ => { choices := [] }
    models := fun _ => none }

/-- A concrete host whose chat endpoint answers the literal text EMPTY. -/
def witHostSentinel : Host :=
  { digest := witDigest, userKey := "uk"
    chat := fun _ => { choices := [{ content := some "EMPTY" }] }
    models := fun _ => none }

/-- The empty cache. -/
def witCache : Cache := ⟨[]⟩

/-! ## The claims -/

/-- C1. For every two-dimensional prompt input, CHATGPT returns a grid of
identical dimensions (the double map preserves the lengths of the rows
and of the row list), and each output cell equals the result of applying
the single-cell pipeline REQUEST_COMPLETIONS, with the same apiKey,
SYSTEM_PROMPT, model, maxTokens and temperature, to that cells input in
isolation, i.e. starting from the initial cache c0; for a scalar input it
returns the scalar result of one pipeline application.  Hypotheses: the
stored credential resolves to apiKey, and the cache-key derivation is
collision free on the cleaned prompts occurring in the grid (the digest
is a cryptographic hash in the source). -/
theorem chatgpt_shape_cellwise
    (host : Host) (dur : Option Int) (stored : Option String) (c0 : Cache)
    (g : List (List JsVal)) (model : String) (mt t : Int) (apiKey : String)
    (hok : PROPERTY_API_KEY_GET stored = Except.ok apiKey)
    (hK : ∀ p1 ∈ (g.join).map STRING_CLEAN, ∀ p2 ∈ (g.join).map STRING_CLEAN,
      reqKey host p1 model mt t = reqKey host p2 model mt t → p1 = p2) :
    (∃ out, CHATGPT host dur stored c0 (SpreadsheetInput.grid g) model mt t = Except.ok out ∧
      out.result = SpreadsheetInput.grid (g.map (fun row => row.map (fun cell =>
        (REQUEST_COMPLETIONS host dur c0 apiKey SYSTEM_PROMPT cell model mt t).result)))) ∧
    (∀ p : JsVal, ∃ out,
      CHATGPT host dur stored c0 (SpreadsheetInput.scalar p) model mt t = Except.ok out ∧
      out.result = SpreadsheetInput.scalar
        (REQUEST_COMPLETIONS host dur c0 apiKey SYSTEM_PROMPT p model mt t).result) := by
  constructor
  · have hgrid := runGrid_isolation host dur c0 apiKey SYSTEM_PROMPT model mt t
      ((g.join).map STRING_CLEAN) hK g c0
      (fun row hr cell hc => List.mem_map_of_mem STRING_CLEAN
        (List.mem_join.mpr ⟨row, hr, hc⟩))
      (Extends.refl host (STRING_CLEAN (JsVal.str SYSTEM_PROMPT)) model mt t _ c0)
    refine ⟨{ result := SpreadsheetInput.grid (runGrid host dur apiKey SYSTEM_PROMPT model mt t g c0).1
              cache := (runGrid host dur apiKey SYSTEM_PROMPT model mt t g c0).2.1
              fetches := (runGrid host dur apiKey SYSTEM_PROMPT model mt t g c0).2.2 }, ?_, ?_⟩
    · simp only [CHATGPT, hok]
    · simpa using congrArg SpreadsheetInput.grid hgrid.1
  · intro p
    refine ⟨{ result := SpreadsheetInput.scalar
                (REQUEST_COMPLETIONS host dur c0 apiKey SYSTEM_PROMPT p model mt t).result
              cache := (REQUEST_COMPLETIONS host dur c0 apiKey SYSTEM_PROMPT p model mt t).cache
              fetches :=
                (REQUEST_COMPLETIONS host dur c0 apiKey SYSTEM_PROMPT p model mt t).fetches },
      ?_, rfl⟩
    simp only [CHATGPT, hok]

/-- Witness for C1 at a concrete host, credential and 2x1 grid. -/
theorem chatgpt_shape_cellwise_witness :
    (∃ out, CHATGPT witHost (some 21600) (some "sk") witCache
        (SpreadsheetInput.grid [[JsVal.str "a"], [JsVal.str "b"]]) "m" 150 0 = Except.ok out ∧
      out.result = SpreadsheetInput.grid
        ([[JsVal.str "a"], [JsVal.str "b"]].map (fun row => row.map (fun cell =>
          (REQUEST_COMPLETIONS witHost (some 21600) witCache "sk" SYSTEM_PROMPT cell
            "m" 150 0).result)))) ∧
    (∀ p : JsVal, ∃ out, CHATGPT witHost (some 21600) (some "sk") witCache
        (SpreadsheetInput.scalar p) "m" 150 0 = Except.ok out ∧
      out.result = SpreadsheetInput.scalar
        (REQUEST_COMPLETIONS witHost (some 21600) witCache "sk" SYSTEM_PROMPT p
          "m" 150 0).result) :=
  chatgpt_shape_cellwise witHost (some 21600) (some "sk") witCache
    [[JsVal.str "a"], [JsVal.str "b"]] "m" 150 0 "sk" (by rfl)
    (by
      intro p1 h1 p2 h2 heq
      have hS : (([[JsVal.str "a"], [JsVal.str "b"]].join).map STRING_CLEAN) = ["a", "b"] := by
        decide
      rw [hS] at h1 h2
      simp only [List.mem_cons, List.not_mem_nil, or_false] at h1 h2
      rcases h1 with rfl | rfl <;> rcases h2 with rfl | rfl <;>
        first
          | rfl
          | exact absurd heq (by decide))

/-- C2. A prompt whose cleaned form is empty text makes the pipeline
return the sentinel EMPTY at once: the cache is unchanged and the traces
of cache reads, cache writes and transport calls are all empty. -/
theorem request_empty_short_circuit (host : Host) (dur : Option Int) (cache : Cache)
    (apiKey promptSystem : String) (prompt : JsVal) (model : String) (mt t : Int)
    (hp : STRING_CLEAN prompt = "") :
    (REQUEST_COMPLETIONS host dur cache apiKey promptSystem prompt model mt t).result = EMPTY ∧
    (REQUEST_COMPLETIONS host dur cache apiKey promptSystem prompt model mt t).cache = cache ∧
    (REQUEST_COMPLETIONS host dur cache apiKey promptSystem prompt model mt t).cacheGets = [] ∧
    (REQUEST_COMPLETIONS host dur cache apiKey promptSystem prompt model mt t).puts = [] ∧
    (REQUEST_COMPLETIONS host dur cache apiKey promptSystem prompt model mt t).fetches = [] := by
  rw [request_empty host dur cache apiKey promptSystem prompt model mt t hp]
  exact ⟨rfl, rfl, rfl, rfl, rfl⟩

/-- Witness for C2 on a whitespace-only prompt. -/
theorem request_empty_short_circuit_witness :
    (REQUEST_COMPLETIONS witHost (some 21600) witCache "sk" SYSTEM_PROMPT
      (JsVal.str "   ") "m" 150 0).result = EMPTY ∧
    (REQUEST_COMPLETIONS witHost (some 21600) witCache "sk" SYSTEM_PROMPT
      (JsVal.str "   ") "m" 150 0).cache = witCache ∧
    (REQUEST_COMPLETIONS witHost (some 21600) witCache "sk" SYSTEM_PROMPT
      (JsVal.str "   ") "m" 150 0).cacheGets = [] ∧
    (REQUEST_COMPLETIONS witHost (some 21600) witCache "sk" SYSTEM_PROMPT
      (JsVal.str "   ") "m" 150 0).puts = [] ∧
    (REQUEST_COMPLETIONS witHost (some 21600) witCache "sk" SYSTEM_PROMPT
      (JsVal.str "   ") "m" 150 0).fetches = [] :=
  request_empty_short_circuit witHost (some 21600) witCache "sk" SYSTEM_PROMPT
    (JsVal.str "   ") "m" 150 0 (by decide)

/-- C3. The cache key is a deterministic function of exactly the tuple
(cleaned prompt, model, maxTokens, temperature): whatever the system
prompt, the only key the pipeline reads is reqKey of that tuple, every
write it makes is under that key, and when the cache holds a non-empty
entry under that key the run returns that entry with no transport call —
so two runs differing only in system prompt hit the same cache entry.
The system prompt occurs in the statement only as an arbitrary
universally quantified argument. -/
theorem cache_key_ignores_system_prompt (host : Host) (dur : Option Int) (cache : Cache)
    (apiKey promptSystem : String) (prompt : JsVal) (model : String) (mt t : Int)
    (hp : STRING_CLEAN prompt ≠ "") :
    (REQUEST_COMPLETIONS host dur cache apiKey promptSystem prompt model mt t).cacheGets =
      (if numOptTruthy dur then [reqKey host (STRING_CLEAN prompt) model mt t] else []) ∧
    (∀ e ∈ (REQUEST_COMPLETIONS host dur cache apiKey promptSystem prompt model mt t).puts,
      e.1 = reqKey host (STRING_CLEAN prompt) model mt t) ∧
    (∀ v, numOptTruthy dur = true →
      cache.get (reqKey host (STRING_CLEAN prompt) model mt t) = some v → v ≠ "" →
      (REQUEST_COMPLETIONS host dur cache apiKey promptSystem prompt model mt t).result = v ∧
      (REQUEST_COMPLETIONS host dur cache apiKey promptSystem prompt model mt t).fetches = []) := by
  by_cases ht : numOptTruthy dur = true
  · cases hc : cache.get (reqKey host (STRING_CLEAN prompt) model mt t) with
    | none =>
      rw [request_fetch host dur cache apiKey promptSystem prompt model mt t hp
        (Or.inr (Or.inl hc))]
      refine ⟨by rw [fetchOut_gets], ?_, ?_⟩
      · intro e he
        rw [fetchOut_puts] at he
        split at he
        · simp only [List.mem_singleton] at he
          rw [he]
        · cases he
      · intro v _ hv _
        simp [hc] at hv
    | some v0 =>
      by_cases hv0 : v0 = ""
      · subst hv0
        rw [request_fetch host dur cache apiKey promptSystem prompt model mt t hp
          (Or.inr (Or.inr hc))]
        refine ⟨by rw [fetchOut_gets], ?_, ?_⟩
        · intro e he
          rw [fetchOut_puts] at he
          split at he
          · simp only [List.mem_singleton] at he
            rw [he]
          · cases he
        · intro v _ hv hne
          injection hv with h
          exact absurd h.symm hne
      · rw [request_hit host dur cache apiKey promptSystem prompt model mt t v0 hp ht hc hv0]
        refine ⟨by rw [if_pos ht], fun e he => absurd he (List.not_mem_nil e), ?_⟩
        intro v _ hv _
        injection hv with h
        exact ⟨h, rfl⟩
  · have ht' : numOptTruthy dur = false := by
      cases h : numOptTruthy dur
      · rfl
      · exact absurd h ht
    rw [request_fetch host dur cache apiKey promptSystem prompt model mt t hp (Or.inl ht')]
    refine ⟨by rw [fetchOut_gets], ?_, ?_⟩
    · intro e he
      rw [fetchOut_puts] at he
      split at he
      · simp only [List.mem_singleton] at he
        rw [he]
      · cases he
    · intro v hvt
      simp [hvt] at ht'

/-- Witness for C3 on a cache already holding the key of prompt hi. -/
theorem cache_key_ignores_system_prompt_witness :
    (REQUEST_COMPLETIONS witHost (some 21600)
        (Cache.put witCache (reqKey witHost "hi" "m" 150 0) "cached") "sk" "sys"
        (JsVal.str "hi") "m" 150 0).cacheGets =
      (if numOptTruthy (some 21600) then [reqKey witHost (STRING_CLEAN (JsVal.str "hi")) "m" 150 0]
       else []) ∧
    (∀ e ∈ (REQUEST_COMPLETIONS witHost (some 21600)
        (Cache.put witCache (reqKey witHost "hi" "m" 150 0) "cached") "sk" "sys"
        (JsVal.str "hi") "m" 150 0).puts,
      e.1 = reqKey witHost (STRING_CLEAN (JsVal.str "hi")) "m" 150 0) ∧
    (∀ v, numOptTruthy (some 21600) = true →
      (Cache.put witCache (reqKey witHost "hi" "m" 150 0) "cached").get
        (reqKey witHost (STRING_CLEAN (JsVal.str "hi")) "m" 150 0) = some v → v ≠ "" →
      (REQUEST_COMPLETIONS witHost (some 21600)
        (Cache.put witCache (reqKey witHost "hi" "m" 150 0) "cached") "sk" "sys"
        (JsVal.str "hi") "m" 150 0).result = v ∧
      (REQUEST_COMPLETIONS witHost (some 21600)
        (Cache.put witCache (reqKey witHost "hi" "m" 150 0) "cached") "sk" "sys"
        (JsVal.str "hi") "m" 150 0).fetches = []) :=
  cache_key_ignores_system_prompt witHost (some 21600)
    (Cache.put witCache (reqKey witHost "hi" "m" 150 0) "cached") "sk" "sys"
    (JsVal.str "hi") "m" 150 0 (by decide)

/-- C4. Once an invocation has stored its (non-empty) result in the
cache, the repeated invocation with the identical parameters returns the
identical text from the cache, makes no transport call, writes nothing,
and leaves the cache exactly as it was. -/
theorem repeat_invocation_cached (host : Host) (dur : Option Int) (cache : Cache)
    (apiKey promptSystem : String) (prompt : JsVal) (model : String) (mt t : Int)
    (hput : (REQUEST_COMPLETIONS host dur cache apiKey promptSystem prompt model mt t).puts ≠ []) :
    (REQUEST_COMPLETIONS host dur
        (REQUEST_COMPLETIONS host dur cache apiKey promptSystem prompt model mt t).cache
        apiKey promptSystem prompt model mt t).result =
      (REQUEST_COMPLETIONS host dur cache apiKey promptSystem prompt model mt t).result ∧
    (REQUEST_COMPLETIONS host dur
        (REQUEST_COMPLETIONS host dur cache apiKey promptSystem prompt model mt t).cache
        apiKey promptSystem prompt model mt t).fetches = [] ∧
    (REQUEST_COMPLETIONS host dur
        (REQUEST_COMPLETIONS host dur cache apiKey promptSystem prompt model mt t).cache
        apiKey promptSystem prompt model mt t).cache =
      (REQUEST_COMPLETIONS host dur cache apiKey promptSystem prompt model mt t).cache ∧
    (REQUEST_COMPLETIONS host dur
        (REQUEST_COMPLETIONS host dur cache apiKey promptSystem prompt model mt t).cache
        apiKey promptSystem prompt model mt t).puts = [] := by
  by_cases hp : STRING_CLEAN prompt = ""
  · rw [request_empty host dur cache apiKey promptSystem prompt model mt t hp] at hput
    exact absurd rfl hput
  · by_cases ht : numOptTruthy dur = true
    · cases hc : cache.get (reqKey host (STRING_CLEAN prompt) model mt t) with
      | none =>
        have hfetch := request_fetch host dur cache apiKey promptSystem prompt model mt t hp
          (Or.inr (Or.inl hc))
        rw [hfetch] at hput ⊢
        rw [fetchOut_puts] at hput
        rw [fetchOut_cache, fetchOut_result]
        split at hput
        · rename_i hcond
          rw [if_pos hcond, if_neg hcond.1]
          have hhit := request_hit host dur
            (Cache.put cache (reqKey host (STRING_CLEAN prompt) model mt t)
              (oracleContent host (STRING_CLEAN (JsVal.str promptSystem)) (STRING_CLEAN prompt)
                model mt t))
            apiKey promptSystem prompt model mt t
            (oracleContent host (STRING_CLEAN (JsVal.str promptSystem)) (STRING_CLEAN prompt)
              model mt t)
            hp ht (by rw [Cache.get_put, if_pos rfl]) hcond.1
          rw [hhit]
          exact ⟨rfl, rfl, rfl, rfl⟩
        · exact absurd rfl hput
      | some v0 =>
        by_cases hv0 : v0 = ""
        · subst hv0
          have hfetch := request_fetch host dur cache apiKey promptSystem prompt model mt t hp
            (Or.inr (Or.inr hc))
          rw [hfetch] at hput ⊢
          rw [fetchOut_puts] at hput
          rw [fetchOut_cache, fetchOut_result]
          split at hput
          · rename_i hcond
            rw [if_pos hcond, if_neg hcond.1]
            have hhit := request_hit host dur
              (Cache.put cache (reqKey host (STRING_CLEAN prompt) model mt t)
                (oracleContent host (STRING_CLEAN (JsVal.str promptSystem)) (STRING_CLEAN prompt)
                  model mt t))
              apiKey promptSystem prompt model mt t
              (oracleContent host (STRING_CLEAN (JsVal.str promptSystem)) (STRING_CLEAN prompt)
                model mt t)
              hp ht (by rw [Cache.get_put, if_pos rfl]) hcond.1
            rw [hhit]
            exact ⟨rfl, rfl, rfl, rfl⟩
          · exact absurd rfl hput
        · rw [request_hit host dur cache apiKey promptSystem prompt model mt t v0 hp ht hc hv0]
            at hput
          exact absurd rfl hput
    · have ht' : numOptTruthy dur = false := by
        cases h : numOptTruthy dur
        · rfl
        · exact absurd h ht
      rw [request_fetch host dur cache apiKey promptSystem prompt model mt t hp (Or.inl ht')]
        at hput
      rw [fetchOut_puts] at hput
      split at hput
      · rename_i hcond
        rw [hcond.2] at ht'
        cases ht'
      · exact absurd rfl hput

/-- Witness for C4 on an empty cache and a host that answers ok. -/
theorem repeat_invocation_cached_witness :
    (REQUEST_COMPLETIONS witHost (some 21600)
        (REQUEST_COMPLETIONS witHost (some 21600) witCache "sk" "" (JsVal.str "hi")
          "m" 150 0).cache "sk" "" (JsVal.str "hi") "m" 150 0).result =
      (REQUEST_COMPLETIONS witHost (some 21600) witCache "sk" "" (JsVal.str "hi")
        "m" 150 0).result ∧
    (REQUEST_COMPLETIONS witHost (some 21600)
        (REQUEST_COMPLETIONS witHost (some 21600) witCache "sk" "" (JsVal.str "hi")
          "m" 150 0).cache "sk" "" (JsVal.str "hi") "m" 150 0).fetches = [] ∧
    (REQUEST_COMPLETIONS witHost (some 21600)
        (REQUEST_COMPLETIONS witHost (some 21600) witCache "sk" "" (JsVal.str "hi")
          "m" 150 0).cache "sk" "" (JsVal.str "hi") "m" 150 0).cache =
      (REQUEST_COMPLETIONS witHost (some 21600) witCache "sk" "" (JsVal.str "hi")
        "m" 150 0).cache ∧
    (REQUEST_COMPLETIONS witHost (some 21600)
        (REQUEST_COMPLETIONS witHost (some 21600) witCache "sk" "" (JsVal.str "hi")
          "m" 150 0).cache "sk" "" (JsVal.str "hi") "m" 150 0).puts = [] :=
  repeat_invocation_cached witHost (some 21600) witCache "sk" "" (JsVal.str "hi") "m" 150 0
    (by decide)

/-- C5. The cache only ever receives entries with non-empty text, and in
every sentinel-producing case (empty cleaned prompt, or upstream reply
with no choice or with content that trims to empty, covered jointly by
oracleContent being empty) nothing is written and the cache is unchanged;
also, whenever no write happens the cache is returned unchanged. -/
theorem cache_stores_only_nonempty (host : Host) (dur : Option Int) (cache : Cache)
    (apiKey promptSystem : String) (prompt : JsVal) (model : String) (mt t : Int) :
    (∀ e ∈ (REQUEST_COMPLETIONS host dur cache apiKey promptSystem prompt model mt t).puts,
      e.2.1 ≠ "") ∧
    ((REQUEST_COMPLETIONS host dur cache apiKey promptSystem prompt model mt t).puts = [] →
      (REQUEST_COMPLETIONS host dur cache apiKey promptSystem prompt model mt t).cache = cache) ∧
    ((STRING_CLEAN prompt = "" ∨
      oracleContent host (STRING_CLEAN (JsVal.str promptSystem)) (STRING_CLEAN prompt)
        model mt t = "") →
      (REQUEST_COMPLETIONS host dur cache apiKey promptSystem prompt model mt t).puts = [] ∧
      (REQUEST_COMPLETIONS host dur cache apiKey promptSystem prompt model mt t).cache = cache) := by
  by_cases hp : STRING_CLEAN prompt = ""
  · rw [request_empty host dur cache apiKey promptSystem prompt model mt t hp]
    exact ⟨fun e he => absurd he (List.not_mem_nil e), fun _ => rfl, fun _ => ⟨rfl, rfl⟩⟩
  · have hmain : ∀ hmiss : numOptTruthy dur = false ∨
        cache.get (reqKey host (STRING_CLEAN prompt) model mt t) = none ∨
        cache.get (reqKey host (STRING_CLEAN prompt) model mt t) = some "",
        (∀ e ∈ (REQUEST_COMPLETIONS host dur cache apiKey promptSystem prompt model mt t).puts,
          e.2.1 ≠ "") ∧
        ((REQUEST_COMPLETIONS host dur cache apiKey promptSystem prompt model mt t).puts = [] →
          (REQUEST_COMPLETIONS host dur cache apiKey promptSystem prompt model mt t).cache
            = cache) ∧
        ((STRING_CLEAN prompt = "" ∨
          oracleContent host (STRING_CLEAN (JsVal.str promptSystem)) (STRING_CLEAN prompt)
            model mt t = "") →
          (REQUEST_COMPLETIONS host dur cache apiKey promptSystem prompt model mt t).puts = [] ∧
          (REQUEST_COMPLETIONS host dur cache apiKey promptSystem prompt model mt t).cache
            = cache) := by
      intro hmiss
      rw [request_fetch host dur cache apiKey promptSystem prompt model mt t hp hmiss]
      rw [fetchOut_puts, fetchOut_cache]
      split
      · rename_i hcond
        refine ⟨?_, ?_, ?_⟩
        · intro e he
          simp only [List.mem_singleton] at he
          rw [he]
          exact hcond.1
        · intro hnil
          cases hnil
        · intro hsent
          rcases hsent with hsent | hsent
          · exact absurd hsent hp
          · exact absurd hsent hcond.1
      · exact ⟨fun e he => absurd he (List.not_mem_nil e), fun _ => rfl, fun _ => ⟨rfl, rfl⟩⟩
    by_cases ht : numOptTruthy dur = true
    · cases hc : cache.get (reqKey host (STRING_CLEAN prompt) model mt t) with
      | none => exact hmain (Or.inr (Or.inl hc))
      | some v0 =>
        by_cases hv0 : v0 = ""
        · subst hv0
          exact hmain (Or.inr (Or.inr hc))
        · rw [request_hit host dur cache apiKey promptSystem prompt model mt t v0 hp ht hc hv0]
          exact ⟨fun e he => absurd he (List.not_mem_nil e), fun _ => rfl, fun _ => ⟨rfl, rfl⟩⟩
    · have ht' : numOptTruthy dur = false := by
        cases h : numOptTruthy dur
        · rfl
        · exact absurd h ht
      exact hmain (Or.inl ht')

/-- Witness for C5 on a host that answers with no choice. -/
theorem cache_stores_only_nonempty_witness :
    (∀ e ∈ (REQUEST_COMPLETIONS witHostNoChoice (some 21600) witCache "sk" ""
        (JsVal.str "hi") "m" 150 0).puts, e.2.1 ≠ "") ∧
    ((REQUEST_COMPLETIONS witHostNoChoice (some 21600) witCache "sk" ""
        (JsVal.str "hi") "m" 150 0).puts = [] →
      (REQUEST_COMPLETIONS witHostNoChoice (some 21600) witCache "sk" ""
        (JsVal.str "hi") "m" 150 0).cache = witCache) ∧
    ((STRING_CLEAN (JsVal.str "hi") = "" ∨
      oracleContent witHostNoChoice (STRING_CLEAN (JsVal.str "")) (STRING_CLEAN (JsVal.str "hi"))
        "m" 150 0 = "") →
      (REQUEST_COMPLETIONS witHostNoChoice (some 21600) witCache "sk" ""
        (JsVal.str "hi") "m" 150 0).puts = [] ∧
      (REQUEST_COMPLETIONS witHostNoChoice (some 21600) witCache "sk" ""
        (JsVal.str "hi") "m" 150 0).cache = witCache) :=
  cache_stores_only_nonempty witHostNoChoice (some 21600) witCache "sk" ""
    (JsVal.str "hi") "m" 150 0

/-- C6. When no credential is available (nothing stored or empty text
stored, with the hardcoded OPENAI_API_KEY constant empty), every
completion entry point returns the fatal error with the remediation text,
whatever the host oracle, cache, duration and input — the error is
produced before any transport call or cell processing, as the result is
the bare error for every host and every grid. -/
theorem no_credential_fails_fast (stored : Option String)
    (hcred : stored = none ∨ stored = some "") :
    ∀ (host : Host) (dur : Option Int) (cache : Cache) (prompt : SpreadsheetInput JsVal)
      (model : String) (mt t : Int),
      CHATGPT host dur stored cache prompt model mt t = Except.error ERROR_NO_KEY ∧
      CHATGPT3 host dur stored cache prompt mt t = Except.error ERROR_NO_KEY ∧
      CHATGPT4 host dur stored cache prompt mt t = Except.error ERROR_NO_KEY ∧
      CHATGPTMODELS host stored = Except.error ERROR_NO_KEY := by
  have hget : PROPERTY_API_KEY_GET stored = Except.error ERROR_NO_KEY := by
    rcases hcred with h | h <;> subst h <;> rfl
  intro host dur cache prompt model mt t
  refine ⟨?_, ?_, ?_, ?_⟩ <;>
    simp [CHATGPT, CHATGPT3, CHATGPT4, CHATGPTMODELS, hget]

/-- Witness for C6 with an absent stored credential at a concrete host,
cache and scalar input. -/
theorem no_credential_fails_fast_witness :
    CHATGPT witHost (some 21600) none witCache (SpreadsheetInput.scalar (JsVal.str "hi"))
        "m" 150 0 = Except.error ERROR_NO_KEY ∧
    CHATGPT3 witHost (some 21600) none witCache (SpreadsheetInput.scalar (JsVal.str "hi"))
        150 0 = Except.error ERROR_NO_KEY ∧
    CHATGPT4 witHost (some 21600) none witCache (SpreadsheetInput.scalar (JsVal.str "hi"))
        150 0 = Except.error ERROR_NO_KEY ∧
    CHATGPTMODELS witHost none = Except.error ERROR_NO_KEY :=
  no_credential_fails_fast none (Or.inl rfl) witHost (some 21600) witCache
    (SpreadsheetInput.scalar (JsVal.str "hi")) "m" 150 0

/-- C7. Every payload the pipeline sends upstream carries exactly the
optional system message first — present precisely when the cleaned system
prompt is non-empty, never with empty content — followed by exactly one
user message holding the cleaned prompt. -/
theorem upstream_messages_shape (host : Host) (dur : Option Int) (cache : Cache)
    (apiKey promptSystem : String) (prompt : JsVal) (model : String) (mt t : Int) :
    ∀ pl ∈ (REQUEST_COMPLETIONS host dur cache apiKey promptSystem prompt model mt t).fetches,
      pl.messages =
        (if STRING_CLEAN (JsVal.str promptSystem) = "" then []
         else [⟨"system", STRING_CLEAN (JsVal.str promptSystem)⟩])
          ++ [⟨"user", STRING_CLEAN prompt⟩] := by
  intro pl hpl
  by_cases hp : STRING_CLEAN prompt = ""
  · rw [request_empty host dur cache apiKey promptSystem prompt model mt t hp] at hpl
    cases hpl
  · have hfetchcase : ∀ hmiss : numOptTruthy dur = false ∨
        cache.get (reqKey host (STRING_CLEAN prompt) model mt t) = none ∨
        cache.get (reqKey host (STRING_CLEAN prompt) model mt t) = some "",
        pl ∈ (REQUEST_COMPLETIONS host dur cache apiKey promptSystem prompt model mt t).fetches →
        pl.messages =
          (if STRING_CLEAN (JsVal.str promptSystem) = "" then []
           else [⟨"system", STRING_CLEAN (JsVal.str promptSystem)⟩])
            ++ [⟨"user", STRING_CLEAN prompt⟩] := by
      intro hmiss hpl'
      rw [request_fetch host dur cache apiKey promptSystem prompt model mt t hp hmiss,
        fetchOut_fetches] at hpl'
      simp only [List.mem_singleton] at hpl'
      rw [hpl']
      simp [requestPayload, requestMessages]
    by_cases ht : numOptTruthy dur = true
    · cases hc : cache.get (reqKey host (STRING_CLEAN prompt) model mt t) with
      | none => exact hfetchcase (Or.inr (Or.inl hc)) hpl
      | some v0 =>
        by_cases hv0 : v0 = ""
        · subst hv0
          exact hfetchcase (Or.inr (Or.inr hc)) hpl
        · rw [request_hit host dur cache apiKey promptSystem prompt model mt t v0 hp ht hc hv0]
            at hpl
          cases hpl
    · have ht' : numOptTruthy dur = false := by
        cases h : numOptTruthy dur
        · rfl
        · exact absurd h ht
      exact hfetchcase (Or.inl ht') hpl

/-- Witness for C7: the single payload of a concrete cache-missing run
has exactly the user message (the system prompt here cleans to empty). -/
theorem upstream_messages_shape_witness :
    (requestPayload witHost (STRING_CLEAN (JsVal.str "  ")) (STRING_CLEAN (JsVal.str " hi "))
        "m" 150 0).messages =
      (if STRING_CLEAN (JsVal.str "  ") = "" then []
       else [⟨"system", STRING_CLEAN (JsVal.str "  ")⟩])
        ++ [⟨"user", STRING_CLEAN (JsVal.str " hi ")⟩] :=
  upstream_messages_shape witHost (some 21600) witCache "sk" "  " (JsVal.str " hi ") "m" 150 0
    (requestPayload witHost (STRING_CLEAN (JsVal.str "  ")) (STRING_CLEAN (JsVal.str " hi "))
      "m" 150 0)
    (by decide)

/-- C8 counterexample: after CHATGPTKEY with empty text the credential
entry is NOT removed from the user property store — the property still
exists, holding the empty string (PROPERTY_API_KEY_SET deletes only for
null/undefined; a string argument is always stored). -/
theorem chatgptkey_empty_counterexample :
    (CHATGPTKEY witHost (some "old-key") (JsVal.str "")).stored = some "" ∧
    (CHATGPTKEY witHost (some "old-key") (JsVal.str "")).stored ≠ none := by
  exact ⟨rfl, by decide⟩

/-- C8 (amended). Calling CHATGPTKEY with empty text clears the stored
credential in effect: the removal message is returned, no probe of the
listing endpoint is made, and the property is overwritten with the empty
string — a value PROPERTY_API_KEY_GET treats as no credential — though
the entry itself is deleted only for null/undefined arguments, not for
empty text. -/
theorem chatgptkey_empty_clears (host : Host) (stored : Option String) :
    CHATGPTKEY host stored (JsVal.str "") =
      { message := "🚮 API Key removed from user settings.", stored := some "", probes := [] } ∧
    PROPERTY_API_KEY_GET (CHATGPTKEY host stored (JsVal.str "")).stored =
      Except.error ERROR_NO_KEY := by
  exact ⟨rfl, rfl⟩

/-- C9. The digest input joins the four key fields with no separator:
the distinct tuples (prompt ab, model c) and (prompt a, model bc), with
equal maxTokens and temperature, produce the identical digest input, so
they receive the same cache key under every digest function — the key
derivation is not injective on the field tuple even before hashing. -/
theorem hash_join_not_injective :
    hashInput [JsVal.str "ab", JsVal.str "c", JsVal.num 150, JsVal.num 0] =
      hashInput [JsVal.str "a", JsVal.str "bc", JsVal.num 150, JsVal.num 0] ∧
    (("ab", "c") : String × String) ≠ ("a", "bc") ∧
    (∀ digest : String → List Int,
      HASH_SHA1 digest [JsVal.str "ab", JsVal.str "c", JsVal.num 150, JsVal.num 0] =
        HASH_SHA1 digest [JsVal.str "a", JsVal.str "bc", JsVal.num 150, JsVal.num 0]) ∧
    (∀ host : Host, reqKey host "ab" "c" 150 0 = reqKey host "a" "bc" 150 0) := by
  have hinput : hashInput [JsVal.str "ab", JsVal.str "c", JsVal.num 150, JsVal.num 0] =
      hashInput [JsVal.str "a", JsVal.str "bc", JsVal.num 150, JsVal.num 0] := by
    decide
  refine ⟨hinput, by decide, ?_, ?_⟩
  · intro digest
    unfold HASH_SHA1 HASH
    rw [hinput]
  · intro host
    unfold reqKey HASH_SHA1 HASH
    rw [hinput]

/-- C10. The sentinel text EMPTY is not reserved: when the upstream
response for a cache-missing, caching-enabled run trims to exactly the
literal EMPTY, the pipeline returns it (indistinguishable from the
sentinel) and, unlike the genuine no-content case, writes it to the
cache. -/
theorem sentinel_not_reserved (host : Host) (dur : Option Int) (cache : Cache)
    (apiKey promptSystem : String) (prompt : JsVal) (model : String) (mt t : Int)
    (hp : STRING_CLEAN prompt ≠ "")
    (ht : numOptTruthy dur = true)
    (hmiss : cache.get (reqKey host (STRING_CLEAN prompt) model mt t) = none)
    (hchat : oracleContent host (STRING_CLEAN (JsVal.str promptSystem)) (STRING_CLEAN prompt)
      model mt t = EMPTY) :
    (REQUEST_COMPLETIONS host dur cache apiKey promptSystem prompt model mt t).result = EMPTY ∧
    (REQUEST_COMPLETIONS host dur cache apiKey promptSystem prompt model mt t).puts =
      [(reqKey host (STRING_CLEAN prompt) model mt t, EMPTY, ttlOf dur)] ∧
    (REQUEST_COMPLETIONS host dur cache apiKey promptSystem prompt model mt t).cache.get
      (reqKey host (STRING_CLEAN prompt) model mt t) = some EMPTY := by
  have hne : oracleContent host (STRING_CLEAN (JsVal.str promptSystem)) (STRING_CLEAN prompt)
      model mt t ≠ "" := by
    rw [hchat]
    decide
  rw [request_fetch host dur cache apiKey promptSystem prompt model mt t hp
    (Or.inr (Or.inl hmiss))]
  rw [fetchOut_result, fetchOut_puts, fetchOut_cache]
  rw [if_neg hne, if_pos ⟨hne, ht⟩, if_pos ⟨hne, ht⟩, hchat]
  exact ⟨rfl, rfl, by rw [Cache.get_put, if_pos rfl]⟩

/-- Witness for C10 on a host whose chat endpoint answers the literal
text EMPTY. -/
theorem sentinel_not_reserved_witness :
    (REQUEST_COMPLETIONS witHostSentinel (some 21600) witCache "sk" "" (JsVal.str "hi")
      "m" 150 0).result = EMPTY ∧
    (REQUEST_COMPLETIONS witHostSentinel (some 21600) witCache "sk" "" (JsVal.str "hi")
      "m" 150 0).puts =
      [(reqKey witHostSentinel (STRING_CLEAN (JsVal.str "hi")) "m" 150 0, EMPTY,
        ttlOf (some 21600))] ∧
    (REQUEST_COMPLETIONS witHostSentinel (some 21600) witCache "sk" "" (JsVal.str "hi")
      "m" 150 0).cache.get
      (reqKey witHostSentinel (STRING_CLEAN (JsVal.str "hi")) "m" 150 0) = some EMPTY :=
  sentinel_not_reserved witHostSentinel (some 21600) witCache "sk" "" (JsVal.str "hi")
    "m" 150 0 (by decide) (by decide) (by decide) (by decide)

end Urvana
